import Mathlib

/-
Shallow embedding of the inference pipeline of `src/backend/main.py`
(Pest-Classification, FastAPI + Keras).

Modelling conventions:
  * Python bytes are `List Byte` with `Byte := Fin 256`.
  * Floating-point pixel values are modelled as rationals `ℚ`; `astype(np.float32)`
    changes only the dtype, which the claims under study do not distinguish from
    exact arithmetic (they assert shapes and the range [0,1]).
  * Python exceptions are an explicit error type `PyError`; a `try/except` block
    becomes a `match` on an `Except PyError _` value.  `fastapi.HTTPException`
    derives from `Exception` (via Starlette), so it is one `PyError` constructor
    and IS caught by a bare `except Exception` clause; Starlette defines
    `str(HTTPException)` as `f"{status_code}: {detail}"`.
  * External collaborators (Pillow decoding/resizing, `tf.keras.models.load_model`,
    `model.predict`, the filesystem) are oracle fields of environment structures
    (`PILEnv`, `LoadEnv`, `ModelHandle`).  Documented library contracts used:
      - `PIL.Image.resize(size)` takes `size = (width, height)` and returns an
        image of exactly that size;
      - `Image.convert("RGB")` yields a 3-band image, replicating a single
        grayscale band across the three channels;
      - `numpy.array` of a 3-band PIL image has shape `(height, width, 3)`
        (Pillow `_conv_type_shape`: `(im.height, im.width, len(bands))`).
  * The module-level globals `model` / `model_load_error` form `ServerState`,
    threaded explicitly through the handlers.
  * The `/predict` handler additionally returns a `List Stage` trace recording
    which pipeline stages executed, used to state reachability properties; the
    trace instrumentation does not alter any computed value.
-/

namespace PestAPI

abbrev Byte := Fin 256

/-- Python exception values relevant to the pipeline: `ValueError`,
`fastapi.HTTPException` (a subclass of `Exception`), and any other exception
(`RuntimeError`, `IndexError`, ...), each carrying its message. -/
inductive PyError where
  | valueError (msg : String)
  | httpError (status : Nat) (detail : String)
  | otherError (msg : String)
deriving DecidableEq

/-- Python `str(e)` for the exceptions above.  Starlette's `HTTPException.__str__`
returns `f"{self.status_code}: {self.detail}"`. -/
def pyStr : PyError → String
  | .valueError msg => msg
  | .httpError status detail => toString status ++ ": " ++ detail
  | .otherError msg => msg

/-- A numpy ndarray: explicit shape metadata plus row-major flattened data.
The shape is metadata (as in numpy), so empty arrays keep their full shape. -/
structure NDArray where
  shape : List Nat
  data : List ℚ
deriving DecidableEq

/-- Number of dimensions, `a.ndim = len(a.shape)`. -/
def NDArray.ndim (a : NDArray) : Nat := a.shape.length

/-- A decoded grayscale (mode "L") PIL image: `height` rows of `width` pixels. -/
structure GrayImage where
  width : Nat
  height : Nat
  rows : List (List Byte)

/-- A decoded RGB PIL image: `height` rows of `width` (r,g,b) pixels. -/
structure RGBImage where
  width : Nat
  height : Nat
  rows : List (List (Byte × Byte × Byte))

/-- Rectangularity invariant a decoded PIL image always satisfies. -/
def RGBImage.WF (img : RGBImage) : Prop :=
  img.rows.length = img.height ∧ ∀ r ∈ img.rows, r.length = img.width

/-- Result of `PIL.Image.open`: the claims under study concern RGB and
grayscale inputs. -/
inductive DecodedImage where
  | rgb (img : RGBImage)
  | gray (img : GrayImage)

/-- Embeds `img.convert("RGB")`: an RGB image is unchanged; a grayscale image
has its single band replicated across the three channels. -/
def convertRGB : DecodedImage → RGBImage
  | .rgb i => i
  | .gray i => ⟨i.width, i.height, i.rows.map (fun r => r.map (fun v => (v, v, v)))⟩

/-- Embeds `np.array(img)` for a 3-band (RGB) PIL image: shape
`(height, width, 3)`, data the raw byte intensities in row-major order. -/
def npOfRGB (img : RGBImage) : NDArray :=
  ⟨[img.height, img.width, 3],
   (img.rows.map (fun r =>
     (r.map (fun p => [((p.1 : Nat) : ℚ), ((p.2.1 : Nat) : ℚ), ((p.2.2 : Nat) : ℚ)])).flatten)).flatten⟩

/-- Embeds `.astype(np.float32) / 255.0`: elementwise division by 255. -/
def npScale (a : NDArray) : NDArray := ⟨a.shape, a.data.map (fun x => x / 255)⟩

/-- Embeds `np.stack([a] * 3, axis=-1)`: a new trailing axis of size 3, each
element of `a` repeated 3 times along it. -/
def npStackLast3 (a : NDArray) : NDArray :=
  ⟨a.shape ++ [3], (a.data.map (fun x => [x, x, x])).flatten⟩

/-- Embeds `np.concatenate([a] * 3, axis=-1)` in the only context the source
uses it, namely `a.shape[-1] == 1`: the trailing axis of size 1 becomes 3. -/
def npConcatLast3 (a : NDArray) : NDArray :=
  ⟨a.shape.dropLast ++ [3], (a.data.map (fun x => [x, x, x])).flatten⟩

/-- Embeds `np.expand_dims(a, axis=0)`. -/
def npExpandDims0 (a : NDArray) : NDArray := ⟨1 :: a.shape, a.data⟩

/-- Embeds lines 167-172 of `main.py`: the channel-fixing branches
`if img_array.ndim == 2: stack` / `elif img_array.shape[-1] == 1: concatenate`.
(`shape[-1]` is the last shape entry; the array reaching this code always has
a nonempty shape.) -/
def ensure3Channels (a : NDArray) : NDArray :=
  if a.ndim = 2 then npStackLast3 a
  else if a.shape.getLast? = some 1 then npConcatLast3 a
  else a

/-- The loaded Keras model: its declared `input_shape` attribute (a tuple of
optional dimensions, typically `(None, H, W, C)`; `none` at the outer level
models the attribute being absent or `None`), and its external `predict`
function. -/
structure ModelHandle where
  input_shape : Option (List (Option Nat))
  predictFn : NDArray → Except PyError NDArray

/-- The module-level mutable globals `model` and `model_load_error`. -/
structure ServerState where
  model : Option ModelHandle
  model_load_error : Option String

/-- External environment of `load_model_safe`: the configured `MODEL_PATH`,
`os.path.exists(MODEL_PATH)`, and `tf.keras.models.load_model` (returning a
handle or the message of the raised exception). -/
structure LoadEnv where
  modelPath : String
  fileExists : Bool
  loadModel : Unit → Except String ModelHandle

/-- External Pillow behaviour: `Image.open` on given bytes (error = the raised
exception), and `Image.resize` (PIL takes the target as `(width, height)`). -/
structure PILEnv where
  imageOpen : List Byte → Except PyError DecodedImage
  resize : RGBImage → Nat × Nat → Except PyError RGBImage

/-- The fixed label list `LABELS` from `main.py` line 25. -/
def LABELS : List String := ["Semilooper", "Spodoptera", "Healthy Leaf"]

/-- The default `IMAGE_SIZE = (224, 224)` from `main.py` line 26. -/
def IMAGE_SIZE : Nat × Nat := (224, 224)

/-- The limit `MAX_FILE_SIZE = 20 * 1024 * 1024` from `main.py` line 27. -/
def MAX_FILE_SIZE : Nat := 20 * 1024 * 1024

/-- Python truthiness of one entry of `model.input_shape`: `None` and `0` are
falsy, any nonzero integer is truthy. -/
def truthyDim : Option Nat → Bool
  | none => false
  | some n => n != 0

/-- Embeds `load_model_safe` (`main.py` lines 89-108) as a function of the
globals and the external environment, returning the Python `bool` result and
the updated globals. -/
def load_model_safe (env : LoadEnv) (st : ServerState) : Bool × ServerState :=
  match st.model with
  | some _ => (true, st)
  | none =>
    if env.fileExists then
      match env.loadModel () with
      | .ok m => (true, { model := some m, model_load_error := none })
      | .error e => (false, { st with model_load_error := some e })
    else
      (false,
       { st with model_load_error := some ("Model file not found at " ++ env.modelPath) })

/-- Embeds `main.py` lines 149-159: the target-size selection inside
`preprocess_image`.  Python evaluates
`model is not None and hasattr(model, "input_shape") and model.input_shape`
(`hasattr` always holds for a Keras model; `None` and the empty tuple are
falsy, subsumed here by the length test since an empty tuple fails
`len(shape) >= 3`), then `len(shape) >= 3 and shape[1] and shape[2]`.  The
inner `except` (reading the attribute cannot fail in this model) is vacuous. -/
def targetSize : Option ModelHandle → Nat × Nat
  | none => IMAGE_SIZE
  | some m =>
    match m.input_shape with
    | none => IMAGE_SIZE
    | some shape =>
      if 3 ≤ shape.length ∧ truthyDim (shape.getD 1 none) ∧ truthyDim (shape.getD 2 none) then
        ((shape.getD 1 none).getD 0, (shape.getD 2 none).getD 0)
      else IMAGE_SIZE

/-- The body of the `try` block of `preprocess_image` (`main.py` lines 142-177):
open, convert to RGB, pick the target size, resize, scale to [0,1], fix the
channel count, and prepend the batch axis. -/
def preprocessBody (pil : PILEnv) (model : Option ModelHandle)
    (image_bytes : List Byte) : Except PyError NDArray := do
  let img ← pil.imageOpen image_bytes
  let img := convertRGB img
  let target_size := targetSize model
  let img ← pil.resize img target_size
  let img_array := npScale (npOfRGB img)
  let img_array := ensure3Channels img_array
  let img_array := npExpandDims0 img_array
  return img_array

/-- Embeds `preprocess_image` (`main.py` lines 129-179): the whole body is
wrapped in `try: ... except Exception as e: raise ValueError(f"Failed to
process image: {str(e)}")`. -/
def preprocess_image (pil : PILEnv) (model : Option ModelHandle)
    (image_bytes : List Byte) : Except PyError NDArray :=
  match preprocessBody pil model image_bytes with
  | .ok t => .ok t
  | .error e => .error (.valueError ("Failed to process image: " ++ pyStr e))

/-- Embeds `predict_async` (`main.py` lines 182-194): raise `RuntimeError` when
the model is not loaded, otherwise run `model.predict` (the threadpool dispatch
does not change the value computed). -/
def predict_async (st : ServerState) (img_array : NDArray) : Except PyError NDArray :=
  match st.model with
  | none => .error (.otherError "Model is not loaded")
  | some m => m.predictFn img_array

/-- First index of the maximum of a nonempty list, matching `np.argmax`
(first occurrence wins). -/
def argmaxAux : List ℚ → Nat → ℚ → Nat → Nat
  | [], _, _, best => best
  | x :: xs, i, bv, best =>
    if bv < x then argmaxAux xs (i + 1) x i else argmaxAux xs (i + 1) bv best

/-- Embeds `np.argmax` on a 1-D sequence of values: `ValueError` on an empty
sequence, else the first position of the maximum. -/
def argmaxList : List ℚ → Except PyError Nat
  | [] => .error (.valueError "attempt to get argmax of an empty sequence")
  | x :: xs => .ok (argmaxAux xs 1 x 0)

/-- Pure value of `argmaxList` on a nonempty list. -/
def argmaxVal : List ℚ → Nat
  | [] => 0
  | x :: xs => argmaxAux xs 1 x 0

/-- Embeds `predictions[0]`: `IndexError` on a 0-d array or an empty leading
axis, else the leading subarray. -/
def npGet0 (a : NDArray) : Except PyError NDArray :=
  match a.shape with
  | [] => .error (.otherError "IndexError: too many indices for array")
  | n :: rest =>
    if n = 0 then .error (.otherError "IndexError: index 0 is out of bounds")
    else .ok ⟨rest, a.data.take rest.prod⟩

/-- JSON values occurring in this API's response payloads. -/
inductive JValue where
  | s (v : String)
  | n (v : Nat)
  | arr (v : List ℚ)
deriving DecidableEq

/-- A JSON object payload as an ordered list of key/value pairs. -/
abbrev Payload := List (String × JValue)

/-- An HTTP outcome: a 200 JSON payload, or an error status with its
`{"detail": ...}` message. -/
inductive Response where
  | ok (payload : Payload)
  | err (status : Nat) (detail : String)
deriving DecidableEq

/-- Pipeline stages of the `/predict` handler, for execution traces. -/
inductive Stage where
  | loadAttempt
  | typeCheck
  | readBody
  | sizeCheck
  | normalization
  | inference
  | assembly
deriving DecidableEq

/-- Embeds `main.py` lines 251-267: response assembly from the raw
`predictions` array.  `probabilities = predictions[0].tolist()` is modelled as
the flat data of `predictions[0]` (exact whenever `predictions` is 2-D, the
shape `model.predict` returns for this classifier); `LABELS[predicted_index]`
and `probabilities[predicted_index]` raise `IndexError` when out of range; the
`confidence` percentage is computed and then not placed in the payload. -/
def assemble (predictions : NDArray) : Except PyError Payload := do
  let row0 ← npGet0 predictions
  let probabilities := row0.data
  let predicted_index ← argmaxList row0.data
  let predicted_label ←
    match LABELS.get? predicted_index with
    | some l => Except.ok l
    | none => Except.error (.otherError "IndexError: list index out of range")
  let _confidence ←
    match probabilities.get? predicted_index with
    | some p => Except.ok (p * 100)
    | none => Except.error (.otherError "IndexError: list index out of range")
  return [("label", JValue.s predicted_label),
          ("index", JValue.n predicted_index),
          ("probabilities", JValue.arr probabilities)]

/-- A `/predict` request: the upload's `content_type` (`none` = Python `None`)
and its raw bytes. -/
structure Request where
  content_type : Option String
  body : List Byte

/-- Python `str.startswith`: the pattern's characters are an initial segment
of the string's characters. -/
def charsStartWith : List Char → List Char → Bool
  | [], _ => true
  | _ :: _, [] => false
  | p :: ps, c :: cs => (p == c) && charsStartWith ps cs

/-- Python truthiness of the validity test on `main.py` line 225:
`file.content_type` truthy (not `None`, not empty) and starting with
`"image/"`. -/
def contentTypeValid : Option String → Bool
  | none => false
  | some s => (s ≠ "") && charsStartWith "image/".data s.data

/-- Python string interpolation of an `Optional[str]`: `None` prints as
`"None"`. -/
def ctStr : Option String → String
  | none => "None"
  | some s => s

/-- Python `x or default` on an optional string: `None` and `""` are falsy. -/
def orElseStr : Option String → String → String
  | none, d => d
  | some s, d => if s = "" then d else s

/-- The `f"File too large. Maximum size is {MAX_FILE_SIZE / (1024*1024):.1f} MB"`
message of `main.py` line 239, with the interpolation evaluated. -/
def sizeMsg : String := "File too large. Maximum size is 20.0 MB"

/-- The `try` block of the `/predict` handler (`main.py` lines 231-267), after
the body has been read: the size check raising `HTTPException(413)` (an
ordinary exception at this point, since it is raised inside the `try`),
preprocessing, inference, and response assembly.  Also returns the trace of
stages that began executing. -/
def tryBlock (pil : PILEnv) (st : ServerState) (contents : List Byte) :
    Except PyError Payload × List Stage :=
  if MAX_FILE_SIZE < contents.length then
    (.error (.httpError 413 sizeMsg), [Stage.sizeCheck])
  else
    match preprocess_image pil st.model contents with
    | .error e => (.error e, [Stage.sizeCheck, Stage.normalization])
    | .ok img_array =>
      match predict_async st img_array with
      | .error e => (.error e, [Stage.sizeCheck, Stage.normalization, Stage.inference])
      | .ok predictions =>
        (assemble predictions,
         [Stage.sizeCheck, Stage.normalization, Stage.inference, Stage.assembly])

/-- The `/predict` handler from the content-type check onward (`main.py` lines
224-272).  The two `except` clauses map a `ValueError` to 400 and any other
exception — including the `HTTPException(413)` raised inside the `try` — to
`500 "Prediction failed: {str(e)}"`. -/
def afterGate (pil : PILEnv) (st : ServerState) (req : Request)
    (tr : List Stage) : Response × ServerState × List Stage :=
  if contentTypeValid req.content_type then
    let r := tryBlock pil st req.body
    (match r.1 with
     | .ok payload => Response.ok payload
     | .error (.valueError m) => Response.err 400 m
     | .error e => Response.err 500 ("Prediction failed: " ++ pyStr e),
     st, tr ++ [Stage.typeCheck, Stage.readBody] ++ r.2)
  else
    (Response.err 400
      ("Invalid file type: " ++ ctStr req.content_type ++ ". Must be an image."),
     st, tr ++ [Stage.typeCheck])

/-- Embeds the `/predict` endpoint (`main.py` lines 203-272).  The readiness
gate (lines 217-222) runs before the `try` block, so its `HTTPException(503)`
reaches the client unwrapped; `detail = model_load_error or "Model not
loaded"` reads the global AFTER the on-demand attempt. -/
def predictEndpoint (env : LoadEnv) (pil : PILEnv) (st : ServerState)
    (req : Request) : Response × ServerState × List Stage :=
  match st.model with
  | some _ => afterGate pil st req []
  | none =>
    let r := load_model_safe env st
    if r.1 then
      afterGate pil r.2 req [Stage.loadAttempt]
    else
      (Response.err 503
        ("Model not loaded: " ++ orElseStr r.2.model_load_error "Model not loaded"),
       r.2, [Stage.loadAttempt])

/-- Embeds `health_check` (`main.py` lines 197-200): the source function takes
no arguments and touches no global; the state parameter here only lets us
state that independence.  FastAPI's default success status is 200. -/
def health_check (_st : ServerState) : Nat × Payload :=
  (200, [("status", JValue.s "ok")])

/-! Concrete fixtures used to instantiate the theorems below. -/

/-- A model handle whose declared input shape is `(None, 2, 3, 3)` and whose
`predict` always returns the distribution `[[0, 1, 0]]` (shape `(1, 3)`). -/
def mTest : ModelHandle :=
  ⟨some [none, some 2, some 3, some 3], fun _ => .ok ⟨[1, 3], [0, 1, 0]⟩⟩

/-- Globals with `mTest` loaded and no recorded error. -/
def stLoaded : ServerState := ⟨some mTest, none⟩

/-- Globals before any load: `model = None`, `model_load_error = None`. -/
def stEmpty : ServerState := ⟨none, none⟩

/-- Environment in which the model artifact file is absent. -/
def envMissing : LoadEnv := ⟨"model.keras", false, fun _ => .error "unreached"⟩

/-- Environment in which loading the artifact succeeds with `mTest`. -/
def envOk : LoadEnv := ⟨"model.keras", true, fun _ => .ok mTest⟩

/-- A Pillow oracle: every byte string decodes to a 1-by-1 grayscale image,
and resizing returns an all-black image of exactly the requested
`(width, height)` — the dimension behaviour PIL documents for `resize`. -/
def pilTest : PILEnv :=
  ⟨fun _ => .ok (.gray ⟨1, 1, [[0]]⟩),
   fun _ wh => .ok ⟨wh.1, wh.2, List.replicate wh.2 (List.replicate wh.1 (0, 0, 0))⟩⟩

/-- The image `pilTest.resize` returns for the target size `(2, 3)`. -/
def rimgTest : RGBImage := ⟨2, 3, List.replicate 3 (List.replicate 2 (0, 0, 0))⟩

/-- The payload the fixture scenario produces: label at argmax position 1. -/
def payloadTest : Payload :=
  [("label", JValue.s "Spodoptera"), ("index", JValue.n 1),
   ("probabilities", JValue.arr [0, 1, 0])]

/-- Spec-side reading of claim C6: the spatial size a loaded model declares,
defined (`some`) exactly when both dimensions at positions 1 and 2 of the
declared `(batch, H, W, C)` input shape are present (non-`None`, non-zero). -/
def declaredHW (shape? : Option (List (Option Nat))) : Option (Nat × Nat) :=
  match shape? with
  | none => none
  | some shape =>
    match shape.getD 1 none, shape.getD 2 none with
    | some h, some w =>
      if 3 ≤ shape.length ∧ h ≠ 0 ∧ w ≠ 0 then some (h, w) else none
    | _, _ => none

/-! Helper lemmas shared by the claim theorems. -/

/-- The array built from an RGB image has shape `(h, w, 3)`, so the
channel-fixing branches leave it unchanged. -/
lemma ensure3Channels_rgb (img : RGBImage) :
    ensure3Channels (npScale (npOfRGB img)) = npScale (npOfRGB img) := by
  unfold ensure3Channels
  simp [NDArray.ndim, npScale, npOfRGB]

/-- Every element of the scaled array of an RGB image lies in `[0, 1]`. -/
lemma npScale_npOfRGB_mem (img : RGBImage) (x : ℚ)
    (hx : x ∈ (npScale (npOfRGB img)).data) : 0 ≤ x ∧ x ≤ 1 := by
  simp only [npScale, List.mem_map] at hx
  obtain ⟨y, hy, rfl⟩ := hx
  have hy' : 0 ≤ y ∧ y ≤ 255 := by
    simp only [npOfRGB, List.mem_flatten, List.mem_map] at hy
    obtain ⟨l, ⟨r, _, rfl⟩, hyl⟩ := hy
    simp only [List.mem_flatten, List.mem_map] at hyl
    obtain ⟨l2, ⟨p, _, rfl⟩, hyl2⟩ := hyl
    have hb : ∀ b : Byte, (0 : ℚ) ≤ (b : Nat) ∧ ((b : Nat) : ℚ) ≤ 255 := by
      intro b
      constructor
      · exact_mod_cast Nat.zero_le _
      · exact_mod_cast Nat.le_of_lt_succ b.isLt
    simp only [List.mem_cons, List.not_mem_nil, or_false] at hyl2
    rcases hyl2 with rfl | rfl | rfl
    · exact hb p.1
    · exact hb p.2.1
    · exact hb p.2.2
  constructor
  · exact div_nonneg hy'.1 (by norm_num)
  · rw [div_le_one (by norm_num : (0 : ℚ) < 255)]
    exact hy'.2

/-! Claim theorems. -/

/-- C4: `load_model_safe` is idempotent — whenever the model handle is already
loaded it returns `True` immediately and leaves the globals (handle, declared
shapes, recorded error) completely unchanged. -/
theorem load_model_safe_idempotent (env : LoadEnv) (st : ServerState)
    (m : ModelHandle) (h : st.model = some m) :
    load_model_safe env st = (true, st) := by
  unfold load_model_safe
  rw [h]

/-- Witness for C4 at a concrete loaded state. -/
theorem load_model_safe_idempotent_witness :
    stLoaded.model = some mTest ∧
    load_model_safe envMissing stLoaded = (true, stLoaded) :=
  ⟨rfl, load_model_safe_idempotent envMissing stLoaded mTest rfl⟩

/-- C5: `GET /health` answers `200 {"status": "ok"}` for every model state,
and the response does not depend on the state at all. -/
theorem health_check_unconditional (st st' : ServerState) :
    health_check st = (200, [("status", JValue.s "ok")]) ∧
    health_check st = health_check st' :=
  ⟨rfl, rfl⟩

/-- C3: whatever the Pillow oracle does on the given bytes, `preprocess_image`
either succeeds or fails with the `ValueError` kind (`DecodeError`) — no other
exception kind escapes. -/
theorem preprocess_error_kind (pil : PILEnv) (model : Option ModelHandle)
    (image_bytes : List Byte) :
    (∃ t, preprocess_image pil model image_bytes = .ok t) ∨
    (∃ msg, preprocess_image pil model image_bytes =
      .error (PyError.valueError msg)) := by
  unfold preprocess_image
  cases preprocessBody pil model image_bytes with
  | ok t => exact .inl ⟨t, rfl⟩
  | error e => exact .inr ⟨_, rfl⟩

/-- C6: the active target size is the model's declared `(height, width)`
exactly when the model is loaded and both spatial dimensions of its declared
input shape are present (non-`None`, non-zero); in every other case it is the
default `IMAGE_SIZE = (224, 224)`. -/
theorem targetSize_matches_declared (m? : Option ModelHandle) :
    targetSize m? = (match m? with
      | none => IMAGE_SIZE
      | some m => (declaredHW m.input_shape).getD IMAGE_SIZE) := by
  match m? with
  | none => rfl
  | some m =>
    cases hs : m.input_shape with
    | none => simp [targetSize, declaredHW, hs]
    | some shape =>
      simp only [targetSize, declaredHW, hs]
      generalize shape.getD 1 none = d1
      generalize shape.getD 2 none = d2
      cases d1 with
      | none => cases d2 <;> simp [truthyDim]
      | some hdim =>
        cases d2 with
        | none => simp [truthyDim]
        | some wdim =>
          by_cases hl : 3 ≤ shape.length <;> by_cases hh : hdim = 0 <;>
            by_cases hw2 : wdim = 0 <;> simp [truthyDim, hl, hh, hw2]

/-- C10: the scaled array built from an image converted to RGB always has
`ndim = 3` and last shape entry 3, so neither grayscale fallback branch
(`ndim == 2` stacking, `shape[-1] == 1` concatenation) ever fires. -/
theorem rgb_fallback_branches_unreachable (img : RGBImage) :
    (npScale (npOfRGB img)).ndim = 3 ∧
    (npScale (npOfRGB img)).shape.getLast? = some 3 ∧
    ensure3Channels (npScale (npOfRGB img)) = npScale (npOfRGB img) :=
  ⟨rfl, rfl, ensure3Channels_rgb img⟩

/-- C7: when the model is not loaded and the single on-demand attempt fails,
`/predict` terminates with a 503 whose detail carries the error the failed
attempt recorded; the resulting globals are those of exactly one
`load_model_safe` call, and the trace shows no validation, normalization or
inference stage ran. -/
theorem unloaded_model_yields_503 (env : LoadEnv) (pil : PILEnv)
    (st : ServerState) (req : Request)
    (hm : st.model = none)
    (hfail : (load_model_safe env st).1 = false) :
    predictEndpoint env pil st req =
      (Response.err 503 ("Model not loaded: " ++
         orElseStr (load_model_safe env st).2.model_load_error "Model not loaded"),
       (load_model_safe env st).2, [Stage.loadAttempt]) := by
  unfold predictEndpoint
  rw [hm]
  simp [hfail]

/-- Witness for C7: missing artifact file, empty globals. -/
theorem unloaded_model_yields_503_witness :
    stEmpty.model = none ∧
    (load_model_safe envMissing stEmpty).1 = false ∧
    predictEndpoint envMissing pilTest stEmpty ⟨some "image/jpeg", []⟩ =
      (Response.err 503 ("Model not loaded: " ++
         orElseStr (load_model_safe envMissing stEmpty).2.model_load_error
           "Model not loaded"),
       (load_model_safe envMissing stEmpty).2, [Stage.loadAttempt]) :=
  ⟨rfl, rfl,
   unloaded_model_yields_503 envMissing pilTest stEmpty ⟨some "image/jpeg", []⟩ rfl rfl⟩

/-- C1 (evaluation of the slip): an oversized body makes the handler raise
`HTTPException(413)` inside the `try` block, where the bare `except Exception`
clause catches it and re-raises it as a 500 — so the client receives 500, not
the 413 the source (and the spec) intend. -/
theorem oversized_payload_maps_to_500 (env : LoadEnv) (pil : PILEnv)
    (st : ServerState) (req : Request) (m : ModelHandle)
    (hm : st.model = some m)
    (hct : contentTypeValid req.content_type = true)
    (hlen : MAX_FILE_SIZE < req.body.length) :
    (predictEndpoint env pil st req).1 =
      Response.err 500
        "Prediction failed: 413: File too large. Maximum size is 20.0 MB" := by
  unfold predictEndpoint
  rw [hm]
  unfold afterGate
  rw [if_pos hct]
  unfold tryBlock
  rw [if_pos hlen]
  simp only [pyStr, sizeMsg]
  decide

/-- Witness for C1 at a 20 MiB + 1 byte body with an image content type and a
loaded model. -/
theorem oversized_payload_maps_to_500_witness :
    stLoaded.model = some mTest ∧
    contentTypeValid (some "image/jpeg") = true ∧
    MAX_FILE_SIZE < (List.replicate (MAX_FILE_SIZE + 1) (0 : Byte)).length ∧
    (predictEndpoint envOk pilTest stLoaded
        ⟨some "image/jpeg", List.replicate (MAX_FILE_SIZE + 1) 0⟩).1 =
      Response.err 500
        "Prediction failed: 413: File too large. Maximum size is 20.0 MB" := by
  have hlen : MAX_FILE_SIZE < (List.replicate (MAX_FILE_SIZE + 1) (0 : Byte)).length := by
    rw [List.length_replicate]
    exact Nat.lt_succ_self _
  exact ⟨rfl, by decide, hlen,
    oversized_payload_maps_to_500 envOk pilTest stLoaded
      ⟨some "image/jpeg", List.replicate (MAX_FILE_SIZE + 1) 0⟩ mTest rfl (by decide) hlen⟩

/-- C9: the size limit is strict — a body of exactly `MAX_FILE_SIZE` bytes does
not trigger the size branch (which fires only for strictly greater lengths)
and the request proceeds into normalization. -/
theorem at_limit_reaches_normalization (env : LoadEnv) (pil : PILEnv)
    (st : ServerState) (req : Request) (m : ModelHandle)
    (hm : st.model = some m)
    (hct : contentTypeValid req.content_type = true)
    (hlen : req.body.length = MAX_FILE_SIZE) :
    ¬ MAX_FILE_SIZE < req.body.length ∧
    Stage.normalization ∈ (predictEndpoint env pil st req).2.2 := by
  have hnot : ¬ MAX_FILE_SIZE < req.body.length := by omega
  refine ⟨hnot, ?_⟩
  unfold predictEndpoint
  rw [hm]
  unfold afterGate
  rw [if_pos hct]
  unfold tryBlock
  rw [if_neg hnot]
  cases hp : preprocess_image pil st.model req.body with
  | error e => simp [hp]
  | ok img_array =>
    cases hq : predict_async st img_array with
    | error e2 => simp [hp, hq]
    | ok preds => simp [hp, hq]

/-- C2 counterexample: with a loaded model declaring input shape
`(None, 2, 3, 3)` the active target size is `(2, 3)`, but the produced tensor
has shape `(1, 3, 2, 3)`, not `(1, 2, 3, 3)` as the claim states — the code
passes `(H, W)` to PIL `resize`, which reads it as `(width, height)`, while
`np.array` lays the result out as `(height, width, channels)`. -/
theorem preprocess_tensor_shape_counterexample :
    targetSize (some mTest) = (2, 3) ∧
    (preprocess_image pilTest (some mTest) []).toOption.map NDArray.shape =
      some [1, 3, 2, 3] ∧
    (preprocess_image pilTest (some mTest) []).toOption.map NDArray.shape ≠
      some [1, (targetSize (some mTest)).1, (targetSize (some mTest)).2, 3] := by
  refine ⟨rfl, by decide, by decide⟩

/-- C2 amended: for every byte string the Pillow oracle decodes (RGB or
grayscale, any dimensions), `preprocess_image` returns a 4-D tensor of shape
`(1, ts.2, ts.1, 3)` where `ts` is the active target size — the two spatial
entries appear swapped relative to the target pair, coinciding with the
claimed `(1, H, W, 3)` whenever the target is square, as with the 224-square
default — and every element lies in `[0, 1]`.  The hypotheses on `rimg` are
PIL's documented `resize` contract: the result has exactly the requested
`(width, height)`. -/
theorem preprocess_tensor_shape_range (pil : PILEnv) (model : Option ModelHandle)
    (image_bytes : List Byte) (dimg : DecodedImage) (rimg : RGBImage)
    (hopen : pil.imageOpen image_bytes = .ok dimg)
    (hresize : pil.resize (convertRGB dimg) (targetSize model) = .ok rimg)
    (hw : rimg.width = (targetSize model).1)
    (hh : rimg.height = (targetSize model).2) :
    preprocess_image pil model image_bytes =
      .ok (npExpandDims0 (npScale (npOfRGB rimg))) ∧
    (npExpandDims0 (npScale (npOfRGB rimg))).ndim = 4 ∧
    (npExpandDims0 (npScale (npOfRGB rimg))).shape =
      [1, (targetSize model).2, (targetSize model).1, 3] ∧
    ∀ x ∈ (npExpandDims0 (npScale (npOfRGB rimg))).data, 0 ≤ x ∧ x ≤ 1 := by
  refine ⟨?_, rfl, ?_, ?_⟩
  · unfold preprocess_image preprocessBody
    rw [hopen]
    simp only [Bind.bind, Except.bind, pure, Except.pure, hresize, ensure3Channels_rgb]
  · simp only [npExpandDims0, npScale, npOfRGB, hh, hw]
  · intro x hx
    exact npScale_npOfRGB_mem rimg x hx

/-- Witness for the amended C2 at the concrete fixture scenario. -/
theorem preprocess_tensor_shape_range_witness :
    pilTest.imageOpen [] = .ok (.gray ⟨1, 1, [[0]]⟩) ∧
    pilTest.resize (convertRGB (.gray ⟨1, 1, [[0]]⟩)) (targetSize (some mTest)) =
      .ok rimgTest ∧
    rimgTest.width = (targetSize (some mTest)).1 ∧
    rimgTest.height = (targetSize (some mTest)).2 ∧
    (preprocess_image pilTest (some mTest) [] =
      .ok (npExpandDims0 (npScale (npOfRGB rimgTest))) ∧
    (npExpandDims0 (npScale (npOfRGB rimgTest))).ndim = 4 ∧
    (npExpandDims0 (npScale (npOfRGB rimgTest))).shape =
      [1, (targetSize (some mTest)).2, (targetSize (some mTest)).1, 3] ∧
    ∀ x ∈ (npExpandDims0 (npScale (npOfRGB rimgTest))).data, 0 ≤ x ∧ x ≤ 1) :=
  ⟨rfl, rfl, rfl, rfl,
   preprocess_tensor_shape_range pilTest (some mTest) [] (.gray ⟨1, 1, [[0]]⟩)
     rimgTest rfl rfl rfl rfl⟩

/-- A successful `argmaxList` yields the first-maximum position. -/
lemma argmaxList_ok (l : List ℚ) (idx : Nat) (h : argmaxList l = .ok idx) :
    idx = argmaxVal l := by
  cases l with
  | nil => simp [argmaxList] at h
  | cons x xs =>
    simp only [argmaxList, argmaxVal] at h ⊢
    exact (Except.ok.injEq _ _).mp h |>.symm

/-- Inversion of `assemble`: a successful assembly is exactly the three-key
payload, with the index the argmax of the probability vector and the label the
`LABELS` entry there. -/
lemma assemble_ok (predictions : NDArray) (p : Payload)
    (h : assemble predictions = .ok p) :
    ∃ label idx probs,
      p = [("label", JValue.s label), ("index", JValue.n idx),
           ("probabilities", JValue.arr probs)] ∧
      argmaxList probs = .ok idx ∧
      LABELS.get? idx = some label := by
  unfold assemble at h
  simp only [Bind.bind, Except.bind] at h
  cases hg : npGet0 predictions with
  | error e => simp only [hg] at h; simp at h
  | ok row0 =>
    simp only [hg] at h
    cases ha : argmaxList row0.data with
    | error e => simp only [ha] at h; simp at h
    | ok idx =>
      simp only [ha] at h
      cases hl : LABELS.get? idx with
      | none => simp only [hl] at h; simp at h
      | some label =>
        simp only [hl] at h
        cases hc : row0.data.get? idx with
        | none => simp only [hc] at h; simp at h
        | some pr =>
          simp only [hc, pure, Except.pure, Except.ok.injEq] at h
          exact ⟨label, idx, row0.data, h.symm, ha, hl⟩

/-- Inversion of the `try` block: a 200 payload can come only from a completed
assembly. -/
lemma tryBlock_payload (pil : PILEnv) (st : ServerState) (contents : List Byte)
    (p : Payload) (h : (tryBlock pil st contents).1 = .ok p) :
    ∃ predictions, assemble predictions = .ok p := by
  unfold tryBlock at h
  by_cases hsz : MAX_FILE_SIZE < contents.length
  · rw [if_pos hsz] at h; simp at h
  · rw [if_neg hsz] at h
    cases hp : preprocess_image pil st.model contents with
    | error e => simp only [hp] at h; simp at h
    | ok arr =>
      simp only [hp] at h
      cases hq : predict_async st arr with
      | error e => simp only [hq] at h; simp at h
      | ok preds => simp only [hq] at h; exact ⟨preds, h⟩

/-- Inversion of the handler tail: a 200 payload passes the content-type gate
and comes from the `try` block unchanged. -/
lemma afterGate_payload (pil : PILEnv) (st : ServerState) (req : Request)
    (tr : List Stage) (p : Payload)
    (h : (afterGate pil st req tr).1 = Response.ok p) :
    (tryBlock pil st req.body).1 = .ok p := by
  simp only [afterGate] at h
  by_cases hct : contentTypeValid req.content_type
  · rw [if_pos hct] at h
    cases hr : (tryBlock pil st req.body).1 with
    | ok payload =>
      rw [hr] at h
      simp only [Response.ok.injEq] at h
      rw [h]
    | error e =>
      rw [hr] at h
      cases e <;> simp at h
  · rw [if_neg hct] at h
    simp at h

/-- C8: every 200 response of `/predict` carries exactly the keys `label`,
`index` and `probabilities`; `index` is the argmax position of the returned
probability vector, `label` is the `LABELS` entry at that position, and no
`confidence` key appears (the percentage is computed but not returned). -/
theorem predict_success_payload (env : LoadEnv) (pil : PILEnv)
    (st : ServerState) (req : Request) (p : Payload)
    (h : (predictEndpoint env pil st req).1 = Response.ok p) :
    ∃ label idx probs,
      p = [("label", JValue.s label), ("index", JValue.n idx),
           ("probabilities", JValue.arr probs)] ∧
      p.map Prod.fst = ["label", "index", "probabilities"] ∧
      "confidence" ∉ p.map Prod.fst ∧
      argmaxList probs = .ok idx ∧
      idx = argmaxVal probs ∧
      LABELS.get? idx = some label := by
  have hag : ∃ st0 tr0, (afterGate pil st0 req tr0).1 = Response.ok p := by
    simp only [predictEndpoint] at h
    cases hm : st.model with
    | some m => rw [hm] at h; exact ⟨st, [], h⟩
    | none =>
      rw [hm] at h
      by_cases hok : (load_model_safe env st).1 = true
      · rw [if_pos hok] at h
        exact ⟨(load_model_safe env st).2, [Stage.loadAttempt], h⟩
      · rw [if_neg hok] at h
        simp at h
  obtain ⟨st0, tr0, hag⟩ := hag
  obtain ⟨preds, hasm⟩ := tryBlock_payload pil st0 req.body p
    (afterGate_payload pil st0 req tr0 p hag)
  obtain ⟨label, idx, probs, hp, ha, hl⟩ := assemble_ok preds p hasm
  subst hp
  exact ⟨label, idx, probs, rfl, rfl,
    (show "confidence" ∉ (["label", "index", "probabilities"] : List String) by decide),
    ha, argmaxList_ok probs idx ha, hl⟩

/-- Witness for C8 at the fixture scenario: model `mTest` predicts `[0, 1, 0]`,
so the payload is label "Spodoptera", index 1. -/
theorem predict_success_payload_witness :
    (predictEndpoint envOk pilTest stLoaded ⟨some "image/png", []⟩).1 =
      Response.ok payloadTest ∧
    ∃ label idx probs,
      payloadTest = [("label", JValue.s label), ("index", JValue.n idx),
           ("probabilities", JValue.arr probs)] ∧
      payloadTest.map Prod.fst = ["label", "index", "probabilities"] ∧
      "confidence" ∉ payloadTest.map Prod.fst ∧
      argmaxList probs = .ok idx ∧
      idx = argmaxVal probs ∧
      LABELS.get? idx = some label :=
  ⟨by decide,
   predict_success_payload envOk pilTest stLoaded ⟨some "image/png", []⟩
     payloadTest (by decide)⟩

/-- Witness for C9 at a body of exactly 20 MiB. -/
theorem at_limit_reaches_normalization_witness :
    (List.replicate MAX_FILE_SIZE (0 : Byte)).length = MAX_FILE_SIZE ∧
    Stage.normalization ∈ (predictEndpoint envOk pilTest stLoaded
      ⟨some "image/jpeg", List.replicate MAX_FILE_SIZE 0⟩).2.2 :=
  ⟨List.length_replicate MAX_FILE_SIZE 0,
   (at_limit_reaches_normalization envOk pilTest stLoaded
      ⟨some "image/jpeg", List.replicate MAX_FILE_SIZE 0⟩ mTest rfl (by decide)
      (List.length_replicate MAX_FILE_SIZE 0)).2⟩

end PestAPI
